import Mathlib

/-!
Shallow embedding of `src/solar_energy_dashboard.py` (the dataset generator
inside `load_solar_data`, plus the presentation-layer row filter), with the
properties of the specification proved against it.

Numbers are modelled as rationals.  The numpy uniform sampler is modelled by
a stream `u : ℕ → ℚ` of unit samples: the `t`-th draw from `[lo, hi]` is
`lo + u t * (hi - lo)`, which realises "drawn uniformly from the closed
interval" whenever `0 ≤ u t ≤ 1`.  Python's `round(x, 2)` is modelled by
`round2` (round to the nearest multiple of `1/100`).  Python dictionary
lookups (which raise `KeyError` on a missing key) and the implicit
fall-through of `get_kwh_calculator` (which returns `None`) are modelled
with `Option`.
-/

namespace Solar

/-- A generated row, with the columns appended by
`generate_complete_year_data`. -/
structure Row where
  day : ℕ
  irradiance : ℚ
  humidity : ℚ
  wind_speed : ℚ
  ambient_temperature : ℚ
  tilt_angle : ℚ
  kwh : ℚ
  season : String
  month : String
  deriving DecidableEq, Repr

/-- The per-season sampling ranges for one season
(one entry of the `feature_ranges` dictionary). -/
structure FeatureRange where
  irradiance : ℚ × ℚ
  humidity : ℚ × ℚ
  wind_speed : ℚ × ℚ
  ambient_temperature : ℚ × ℚ
  tilt_angle : ℚ × ℚ
  deriving DecidableEq, Repr

/-- The `'summer'` entry of the `feature_ranges` dictionary (lines 90-96). -/
def summer_ranges : FeatureRange :=
  { irradiance := (600, 1000)
    humidity := (10, 50)
    wind_speed := (0, 5)
    ambient_temperature := (30, 45)
    tilt_angle := (10, 40) }

/-- The `'winter'` entry of the `feature_ranges` dictionary (lines 97-103). -/
def winter_ranges : FeatureRange :=
  { irradiance := (300, 700)
    humidity := (30, 70)
    wind_speed := (1, 6)
    ambient_temperature := (5, 20)
    tilt_angle := (10, 40) }

/-- The `'monsoon'` entry of the `feature_ranges` dictionary (lines 104-110). -/
def monsoon_ranges : FeatureRange :=
  { irradiance := (100, 600)
    humidity := (70, 100)
    wind_speed := (2, 8)
    ambient_temperature := (20, 35)
    tilt_angle := (10, 40) }

/-- The `feature_ranges` dictionary of the source (lines 89-111). -/
def feature_ranges : String → Option FeatureRange
  | "summer" => some summer_ranges
  | "winter" => some winter_ranges
  | "monsoon" => some monsoon_ranges
  | _ => none

/-- The `months_days` dictionary (lines 114-118), in insertion order. -/
def months_days : List (String × ℕ) :=
  [("January", 31), ("February", 28), ("March", 31), ("April", 30),
   ("May", 31), ("June", 30), ("July", 31), ("August", 31),
   ("September", 30), ("October", 31), ("November", 30), ("December", 31)]

/-- The `month_to_season` dictionary (lines 121-125). -/
def month_to_season : String → Option String
  | "January" => some "winter"
  | "February" => some "winter"
  | "March" => some "summer"
  | "April" => some "summer"
  | "May" => some "summer"
  | "June" => some "summer"
  | "July" => some "monsoon"
  | "August" => some "monsoon"
  | "September" => some "monsoon"
  | "October" => some "monsoon"
  | "November" => some "winter"
  | "December" => some "winter"
  | _ => none

/-- `calc_kwh_summer` (line 128-129). -/
def calc_kwh_summer (irradiance humidity wind_speed ambient_temp tilt_angle : ℚ) : ℚ :=
  0.25 * irradiance - 0.05 * humidity + 0.02 * wind_speed + 0.1 * ambient_temp
    - 0.03 * |tilt_angle - 30|

/-- `calc_kwh_winter` (line 131-132). -/
def calc_kwh_winter (irradiance humidity wind_speed ambient_temp tilt_angle : ℚ) : ℚ :=
  0.18 * irradiance - 0.03 * humidity + 0.015 * wind_speed + 0.08 * ambient_temp
    - 0.02 * |tilt_angle - 30|

/-- `calc_kwh_monsoon` (line 134-135). -/
def calc_kwh_monsoon (irradiance humidity wind_speed ambient_temp tilt_angle : ℚ) : ℚ :=
  0.15 * irradiance - 0.1 * humidity + 0.01 * wind_speed + 0.05 * ambient_temp
    - 0.04 * |tilt_angle - 30|

/-- `get_kwh_calculator` (lines 137-143).  The Python function has no `else`
branch, so an unrecognized season yields `None`, modelled as `none`. -/
def get_kwh_calculator (season : String) : Option (ℚ → ℚ → ℚ → ℚ → ℚ → ℚ) :=
  if season == "summer" then some calc_kwh_summer
  else if season == "winter" then some calc_kwh_winter
  else if season == "monsoon" then some calc_kwh_monsoon
  else none

/-- Python `round(x, 2)`: round to the nearest multiple of `1/100`. -/
def round2 (x : ℚ) : ℚ := (round (100 * x) : ℤ) / 100

/-- One draw of `np.random.uniform(lo, hi)`, realised from the unit sample
stream `u` at position `t`. -/
def uniform (u : ℕ → ℚ) (t : ℕ) (p : ℚ × ℚ) : ℚ :=
  p.1 + u t * (p.2 - p.1)

/-- One iteration of the inner `for day in range(days)` loop body
(lines 154-172): sample the five fields (five consecutive draws, in source
order), compute `kwh` with the season's calculator on the raw samples, and
append the row with all numeric fields rounded to 2 decimal places. -/
def mkRow (u : ℕ → ℚ) (t dayc : ℕ) (month season : String)
    (fr : FeatureRange) (calc_kwh_func : ℚ → ℚ → ℚ → ℚ → ℚ → ℚ) : Row :=
  let irr := uniform u t fr.irradiance
  let hum := uniform u (t + 1) fr.humidity
  let wind := uniform u (t + 2) fr.wind_speed
  let temp := uniform u (t + 3) fr.ambient_temperature
  let tilt := uniform u (t + 4) fr.tilt_angle
  let kwh := calc_kwh_func irr hum wind temp tilt
  { day := dayc
    irradiance := round2 irr
    humidity := round2 hum
    wind_speed := round2 wind
    ambient_temperature := round2 temp
    tilt_angle := round2 tilt
    kwh := round2 kwh
    season := season
    month := month }

/-- The inner day loop of `generate_complete_year_data`: `d` remaining days
of a month, consuming five draws per day and incrementing the day counter. -/
def genMonthDays (u : ℕ → ℚ) (month season : String) (fr : FeatureRange)
    (calc_kwh_func : ℚ → ℚ → ℚ → ℚ → ℚ → ℚ) : ℕ → ℕ → ℕ → List Row
  | 0, _, _ => []
  | d + 1, t, dayc =>
      mkRow u t dayc month season fr calc_kwh_func ::
        genMonthDays u month season fr calc_kwh_func d (t + 5) (dayc + 1)

/-- The outer month loop of `generate_complete_year_data` (lines 149-173),
generic in the remaining month list.  The dictionary lookups
`month_to_season[month]`, the calculator dispatch and the range lookup can
all fail in Python (KeyError / calling `None`), hence the `Option` result. -/
def genMonths (u : ℕ → ℚ) : List (String × ℕ) → ℕ → ℕ → Option (List Row)
  | [], _, _ => some []
  | (month, days) :: rest, t, dayc =>
      match month_to_season month with
      | none => none
      | some season =>
        match get_kwh_calculator season with
        | none => none
        | some calc_kwh_func =>
          match feature_ranges season with
          | none => none
          | some fr =>
            match genMonths u rest (t + 5 * days) (dayc + days) with
            | none => none
            | some restRows =>
                some (genMonthDays u month season fr calc_kwh_func days t dayc ++ restRows)

/-- `generate_complete_year_data` (lines 146-174): iterate the months in
insertion order, starting the day counter at 1. -/
def generate_complete_year_data (u : ℕ → ℚ) : Option (List Row) :=
  genMonths u months_days 0 1

/-- `load_solar_data` (lines 86-176) just returns the generated table. -/
def load_solar_data (u : ℕ → ℚ) : Option (List Row) :=
  generate_complete_year_data u

/-- The presentation-layer filter (lines 202-205):
`df[(df['season'].isin(S)) & (df['month'].isin(M))]`. -/
def filtered_df (df : List Row) (S M : List String) : List Row :=
  df.filter fun r => S.contains r.season && M.contains r.month

/-- The month column that "position under the fixed month lengths" dictates:
each month name repeated for its day count, in calendar order. -/
def monthSeq : List (String × ℕ) → List String
  | [] => []
  | (m, d) :: rest => List.replicate d m ++ monthSeq rest

/-- Total day count of a month table. -/
def totalDays (ms : List (String × ℕ)) : ℕ :=
  (ms.map Prod.snd).sum

/-- A month entry is resolvable: its season lookup, calculator dispatch and
range lookup all succeed. -/
def monthOk (m : String) : Bool :=
  match month_to_season m with
  | some s => (get_kwh_calculator s).isSome && (feature_ranges s).isSome
  | none => false

/-- One cache-read step, modelled from the spec: the `@st.cache_data`
memoization of `load_solar_data` (the caching semantics live in the
Streamlit library, not in this repository).  On a cold cache the generator
is run and its result stored; on a warm cache the stored table is returned
and the generator is not re-run. -/
def cacheRead (u : ℕ → ℚ) : Option (Option (List Row)) →
    Option (List Row) × Option (Option (List Row))
  | some tbl => (tbl, some tbl)
  | none => (load_solar_data u, some (load_solar_data u))

/-- Modelled from the spec: the tables observed by `n` successive
presentation-layer reads within one dashboard session, starting from an
empty cache. -/
def sessionReads (u : ℕ → ℚ) : ℕ → Option (Option (List Row)) → List (Option (List Row))
  | 0, _ => []
  | n + 1, cache =>
      let step := cacheRead u cache
      step.1 :: sessionReads u n step.2

/-- The five sampled values lie in the closed intervals of a range table
entry (the property of spec §8, "every sampled field value lies within its
season's configured [low, high] inclusive range"). -/
def inRange5 (i h w a t : ℚ) (fr : FeatureRange) : Prop :=
  fr.irradiance.1 ≤ i ∧ i ≤ fr.irradiance.2 ∧
  fr.humidity.1 ≤ h ∧ h ≤ fr.humidity.2 ∧
  fr.wind_speed.1 ≤ w ∧ w ≤ fr.wind_speed.2 ∧
  fr.ambient_temperature.1 ≤ a ∧ a ≤ fr.ambient_temperature.2 ∧
  fr.tilt_angle.1 ≤ t ∧ t ≤ fr.tilt_angle.2

/-- The stored (rounded) fields of a row lie in a range table entry. -/
def rowInRange (r : Row) (fr : FeatureRange) : Prop :=
  inRange5 r.irradiance r.humidity r.wind_speed r.ambient_temperature r.tilt_angle fr

/-- A well-formed interval: integer endpoints (denominator 1) in order. -/
def pairOk (p : ℚ × ℚ) : Prop :=
  p.1.den = 1 ∧ p.2.den = 1 ∧ p.1 ≤ p.2

/-- All five intervals of a range table entry are well-formed. -/
def frOk (fr : FeatureRange) : Prop :=
  pairOk fr.irradiance ∧ pairOk fr.humidity ∧ pairOk fr.wind_speed ∧
    pairOk fr.ambient_temperature ∧ pairOk fr.tilt_angle

instance : DecidablePred pairOk := fun p => by
  unfold pairOk; infer_instance

instance : DecidablePred frOk := fun fr => by
  unfold frOk; infer_instance

/-! ### Helper lemmas -/

theorem round_mono2 {x y : ℚ} (h : x ≤ y) : round x ≤ round y := by
  rw [round_eq, round_eq]
  exact Int.floor_mono (by linarith)

theorem round2_le_of_le_int {x : ℚ} {b : ℤ} (h : x ≤ b) : round2 x ≤ b := by
  unfold round2
  rw [div_le_iff₀ (by norm_num : (0:ℚ) < 100)]
  have h1 : round (100 * x) ≤ round ((100 * b : ℤ) : ℚ) := by
    apply round_mono2
    push_cast
    linarith
  rw [round_intCast] at h1
  calc ((round (100 * x) : ℤ) : ℚ) ≤ ((100 * b : ℤ) : ℚ) := by exact_mod_cast h1
    _ = (b : ℚ) * 100 := by push_cast; ring

theorem int_le_round2 {x : ℚ} {a : ℤ} (h : (a : ℚ) ≤ x) : (a : ℚ) ≤ round2 x := by
  unfold round2
  rw [le_div_iff₀ (by norm_num : (0:ℚ) < 100)]
  have h1 : round ((100 * a : ℤ) : ℚ) ≤ round (100 * x) := by
    apply round_mono2
    push_cast
    linarith
  rw [round_intCast] at h1
  calc (a : ℚ) * 100 = ((100 * a : ℤ) : ℚ) := by push_cast; ring
    _ ≤ ((round (100 * x) : ℤ) : ℚ) := by exact_mod_cast h1

theorem abs_round2_sub (x : ℚ) : |round2 x - x| ≤ 1 / 200 := by
  have h := abs_sub_round (100 * x)
  rw [abs_le] at h
  unfold round2
  rw [abs_le]
  constructor
  · linarith [h.1, h.2]
  · linarith [h.1, h.2]

theorem uniform_mem {u : ℕ → ℚ} {t : ℕ} {p : ℚ × ℚ}
    (h0 : 0 ≤ u t) (h1 : u t ≤ 1) (hp : p.1 ≤ p.2) :
    p.1 ≤ uniform u t p ∧ uniform u t p ≤ p.2 := by
  unfold uniform
  constructor
  · nlinarith
  · nlinarith

theorem round2_uniform_mem {u : ℕ → ℚ} {t : ℕ} {a b : ℤ}
    (h0 : 0 ≤ u t) (h1 : u t ≤ 1) (hab : (a : ℚ) ≤ b) :
    (a : ℚ) ≤ round2 (uniform u t ((a : ℚ), (b : ℚ))) ∧
      round2 (uniform u t ((a : ℚ), (b : ℚ))) ≤ b := by
  have h := uniform_mem h0 h1 (by exact hab : ((((a : ℚ), (b : ℚ)) : ℚ × ℚ)).1 ≤ (b : ℚ))
  exact ⟨int_le_round2 h.1, round2_le_of_le_int h.2⟩

theorem genMonthDays_map_day (u : ℕ → ℚ) (month season : String) (fr : FeatureRange)
    (f : ℚ → ℚ → ℚ → ℚ → ℚ → ℚ) :
    ∀ d t dayc, (genMonthDays u month season fr f d t dayc).map Row.day =
      List.range' dayc d := by
  intro d
  induction d with
  | zero => intro t dayc; rfl
  | succ d ih =>
      intro t dayc
      simp only [genMonthDays, List.map_cons, ih, List.range'_succ]
      rfl

theorem genMonthDays_map_month (u : ℕ → ℚ) (month season : String) (fr : FeatureRange)
    (f : ℚ → ℚ → ℚ → ℚ → ℚ → ℚ) :
    ∀ d t dayc, (genMonthDays u month season fr f d t dayc).map Row.month =
      List.replicate d month := by
  intro d
  induction d with
  | zero => intro t dayc; rfl
  | succ d ih =>
      intro t dayc
      simp only [genMonthDays, List.map_cons, ih, List.replicate_succ]
      rfl

theorem genMonthDays_mem {u : ℕ → ℚ} {month season : String} {fr : FeatureRange}
    {f : ℚ → ℚ → ℚ → ℚ → ℚ → ℚ} {r : Row} :
    ∀ {d t dayc}, r ∈ genMonthDays u month season fr f d t dayc →
      ∃ t' dayc', r = mkRow u t' dayc' month season fr f := by
  intro d
  induction d with
  | zero => intro t dayc h; simp [genMonthDays] at h
  | succ d ih =>
      intro t dayc h
      rw [genMonthDays, List.mem_cons] at h
      rcases h with h | h
      · exact ⟨t, dayc, h⟩
      · exact ih h

theorem genMonths_ok (u : ℕ → ℚ) :
    ∀ (ms : List (String × ℕ)) (t dayc : ℕ), (∀ p ∈ ms, monthOk p.1 = true) →
      ∃ rows, genMonths u ms t dayc = some rows ∧
        rows.map Row.day = List.range' dayc (totalDays ms) ∧
        rows.map Row.month = monthSeq ms := by
  intro ms
  induction ms with
  | nil => intro t dayc _; exact ⟨[], rfl, rfl, rfl⟩
  | cons p rest ih =>
      intro t dayc hok
      obtain ⟨month, days⟩ := p
      have hm : monthOk month = true := hok _ (List.mem_cons_self _ _)
      have hrest : ∀ q ∈ rest, monthOk q.1 = true := fun q hq => hok q (List.mem_cons_of_mem _ hq)
      obtain ⟨rows, hrows, hday, hmonth⟩ := ih (t + 5 * days) (dayc + days) hrest
      unfold monthOk at hm
      rcases hms : month_to_season month with _ | season <;> simp only [hms] at hm
      · exact absurd hm (by simp)
      rcases hcal : get_kwh_calculator season with _ | f
      · rw [hcal] at hm; exact absurd hm (by simp)
      rcases hfr : feature_ranges season with _ | fr
      · rw [hcal, hfr] at hm; exact absurd hm (by simp)
      refine ⟨genMonthDays u month season fr f days t dayc ++ rows, ?_, ?_, ?_⟩
      · simp only [genMonths, hms, hcal, hfr, hrows]
      · rw [List.map_append, genMonthDays_map_day, hday]
        show _ = List.range' dayc (totalDays ((month, days) :: rest))
        have : totalDays ((month, days) :: rest) = totalDays rest + days := by
          simp [totalDays]; omega
        rw [this, List.range'_append_1]
      · rw [List.map_append, genMonthDays_map_month, hmonth]
        rfl

theorem genMonths_mem (u : ℕ → ℚ) :
    ∀ (ms : List (String × ℕ)) (t dayc : ℕ) (rows : List Row) (r : Row),
      genMonths u ms t dayc = some rows → r ∈ rows →
      ∃ month days season fr f t' dayc',
        (month, days) ∈ ms ∧ month_to_season month = some season ∧
        get_kwh_calculator season = some f ∧ feature_ranges season = some fr ∧
        r = mkRow u t' dayc' month season fr f := by
  intro ms
  induction ms with
  | nil =>
      intro t dayc rows r hrows hr
      rw [genMonths] at hrows
      cases hrows
      simp at hr
  | cons p rest ih =>
      intro t dayc rows r hrows hr
      obtain ⟨month, days⟩ := p
      rw [genMonths] at hrows
      rcases hms : month_to_season month with _ | season <;> simp only [hms] at hrows
      · exact absurd hrows (by simp)
      rcases hcal : get_kwh_calculator season with _ | f <;> simp only [hcal] at hrows
      · exact absurd hrows (by simp)
      rcases hfr : feature_ranges season with _ | fr <;> simp only [hfr] at hrows
      · exact absurd hrows (by simp)
      rcases hrest : genMonths u rest (t + 5 * days) (dayc + days) with _ | restRows <;>
        simp only [hrest] at hrows
      · exact absurd hrows (by simp)
      injection hrows with hrows
      subst hrows
      rw [List.mem_append] at hr
      rcases hr with hr | hr
      · obtain ⟨t', dayc', hr⟩ := genMonthDays_mem hr
        exact ⟨month, days, season, fr, f, t', dayc',
          List.mem_cons_self _ _, hms, hcal, hfr, hr⟩
      · obtain ⟨m', d', s', fr', f', t', dayc', hmem, h1, h2, h3, h4⟩ :=
          ih _ _ _ _ hrest hr
        exact ⟨m', d', s', fr', f', t', dayc', List.mem_cons_of_mem _ hmem, h1, h2, h3, h4⟩

theorem round2_mem_of_den_one {x lo hi : ℚ} (hlo : lo.den = 1) (hhi : hi.den = 1)
    (h1 : lo ≤ x) (h2 : x ≤ hi) : lo ≤ round2 x ∧ round2 x ≤ hi := by
  have hl : ((lo.num : ℤ) : ℚ) = lo := Rat.den_eq_one_iff lo |>.mp hlo
  have hh : ((hi.num : ℤ) : ℚ) = hi := Rat.den_eq_one_iff hi |>.mp hhi
  constructor
  · rw [← hl]
    exact int_le_round2 (by rw [hl]; exact h1)
  · rw [← hh]
    exact round2_le_of_le_int (by rw [hh]; exact h2)

theorem round2_uniform_pair {u : ℕ → ℚ} {t : ℕ} {p : ℚ × ℚ}
    (h0 : 0 ≤ u t) (h1 : u t ≤ 1) (hp : pairOk p) :
    p.1 ≤ round2 (uniform u t p) ∧ round2 (uniform u t p) ≤ p.2 := by
  obtain ⟨hd1, hd2, hle⟩ := hp
  have hu := uniform_mem h0 h1 hle
  exact round2_mem_of_den_one hd1 hd2 hu.1 hu.2

theorem feature_ranges_frOk {s : String} {fr : FeatureRange}
    (h : feature_ranges s = some fr) : frOk fr := by
  unfold feature_ranges at h
  split at h <;> first
    | (injection h with h; subst h; decide)
    | exact absurd h (by simp)

theorem get_kwh_calculator_cases {season : String} {f : ℚ → ℚ → ℚ → ℚ → ℚ → ℚ}
    (h : get_kwh_calculator season = some f) :
    f = calc_kwh_summer ∨ f = calc_kwh_winter ∨ f = calc_kwh_monsoon := by
  unfold get_kwh_calculator at h
  split_ifs at h with h1 h2 h3
  · exact Or.inl (Option.some.inj h).symm
  · exact Or.inr (Or.inl (Option.some.inj h).symm)
  · exact Or.inr (Or.inr (Option.some.inj h).symm)

theorem feature_ranges_inv {s : String} {fr : FeatureRange}
    (h : feature_ranges s = some fr) :
    (s = "summer" ∧ fr = summer_ranges) ∨ (s = "winter" ∧ fr = winter_ranges) ∨
      (s = "monsoon" ∧ fr = monsoon_ranges) := by
  unfold feature_ranges at h
  split at h
  · exact Or.inl ⟨rfl, (Option.some.inj h).symm⟩
  · exact Or.inr (Or.inl ⟨rfl, (Option.some.inj h).symm⟩)
  · exact Or.inr (Or.inr ⟨rfl, (Option.some.inj h).symm⟩)
  · exact absurd h (by simp)

theorem mkRow_inRange {u : ℕ → ℚ} (h01 : ∀ n, 0 ≤ u n ∧ u n ≤ 1)
    (t dayc : ℕ) (m s : String) {fr : FeatureRange}
    (f : ℚ → ℚ → ℚ → ℚ → ℚ → ℚ) (hfr : frOk fr) :
    rowInRange (mkRow u t dayc m s fr f) fr := by
  obtain ⟨hp1, hp2, hp3, hp4, hp5⟩ := hfr
  have g1 := round2_uniform_pair (h01 t).1 (h01 t).2 hp1
  have g2 := round2_uniform_pair (h01 (t + 1)).1 (h01 (t + 1)).2 hp2
  have g3 := round2_uniform_pair (h01 (t + 2)).1 (h01 (t + 2)).2 hp3
  have g4 := round2_uniform_pair (h01 (t + 3)).1 (h01 (t + 3)).2 hp4
  have g5 := round2_uniform_pair (h01 (t + 4)).1 (h01 (t + 4)).2 hp5
  exact ⟨g1.1, g1.2, g2.1, g2.2, g3.1, g3.2, g4.1, g4.2, g5.1, g5.2⟩

theorem calc_lipschitz {f : ℚ → ℚ → ℚ → ℚ → ℚ → ℚ}
    (hf : f = calc_kwh_summer ∨ f = calc_kwh_winter ∨ f = calc_kwh_monsoon)
    (a a' b b' c c' d d' e e' : ℚ) :
    |f a' b' c' d' e' - f a b c d e| ≤
      0.25 * |a' - a| + 0.1 * |b' - b| + 0.02 * |c' - c| + 0.1 * |d' - d|
        + 0.04 * |e' - e| := by
  have he : abs (|e' - 30| - |e - 30|) ≤ |e' - e| := by
    have h1 := abs_abs_sub_abs_le_abs_sub (e' - 30) (e - 30)
    have h2 : e' - 30 - (e - 30) = e' - e := by ring
    rwa [h2] at h1
  have he' := abs_le.mp he
  rcases hf with hf | hf | hf <;> subst hf <;>
    simp only [calc_kwh_summer, calc_kwh_winter, calc_kwh_monsoon] <;>
    rw [abs_le] <;>
    refine ⟨?_, ?_⟩ <;>
    linarith [le_abs_self (a' - a), neg_abs_le (a' - a), le_abs_self (b' - b),
      neg_abs_le (b' - b), le_abs_self (c' - c), neg_abs_le (c' - c),
      le_abs_self (d' - d), neg_abs_le (d' - d), he'.1, he'.2,
      abs_nonneg (a' - a), abs_nonneg (b' - b), abs_nonneg (c' - c),
      abs_nonneg (d' - d), abs_nonneg (e' - e)]

theorem kwh_recompute_close {f : ℚ → ℚ → ℚ → ℚ → ℚ → ℚ}
    (hf : f = calc_kwh_summer ∨ f = calc_kwh_winter ∨ f = calc_kwh_monsoon)
    (a b c d e : ℚ) :
    |f (round2 a) (round2 b) (round2 c) (round2 d) (round2 e) - round2 (f a b c d e)|
      ≤ 1 / 100 := by
  have hL := calc_lipschitz hf a (round2 a) b (round2 b) c (round2 c) d (round2 d) e (round2 e)
  have h0 : |f a b c d e - round2 (f a b c d e)| ≤ 1 / 200 := by
    rw [abs_sub_comm]; exact abs_round2_sub (f a b c d e)
  have ha := abs_round2_sub a
  have hb := abs_round2_sub b
  have hc := abs_round2_sub c
  have hd := abs_round2_sub d
  have he := abs_round2_sub e
  have htri := abs_sub_le (f (round2 a) (round2 b) (round2 c) (round2 d) (round2 e))
    (f a b c d e) (round2 (f a b c d e))
  linarith

theorem calc_kwh_summer_lb {i h w a t : ℚ} (h1 : 600 ≤ i) (h2 : h ≤ 50) (h3 : 0 ≤ w)
    (h4 : 30 ≤ a) (h5 : 10 ≤ t) (h6 : t ≤ 40) : (5.22 : ℚ) ≤ calc_kwh_summer i h w a t := by
  unfold calc_kwh_summer
  have ht : |t - 30| ≤ 20 := abs_le.mpr ⟨by linarith, by linarith⟩
  linarith [abs_nonneg (t - 30)]

theorem calc_kwh_winter_lb {i h w a t : ℚ} (h1 : 300 ≤ i) (h2 : h ≤ 70) (h3 : 1 ≤ w)
    (h4 : 5 ≤ a) (h5 : 10 ≤ t) (h6 : t ≤ 40) : (5.22 : ℚ) ≤ calc_kwh_winter i h w a t := by
  unfold calc_kwh_winter
  have ht : |t - 30| ≤ 20 := abs_le.mpr ⟨by linarith, by linarith⟩
  linarith [abs_nonneg (t - 30)]

theorem calc_kwh_monsoon_lb {i h w a t : ℚ} (h1 : 100 ≤ i) (h2 : h ≤ 100) (h3 : 2 ≤ w)
    (h4 : 20 ≤ a) (h5 : 10 ≤ t) (h6 : t ≤ 40) : (5.22 : ℚ) ≤ calc_kwh_monsoon i h w a t := by
  unfold calc_kwh_monsoon
  have ht : |t - 30| ≤ 20 := abs_le.mpr ⟨by linarith, by linarith⟩
  linarith [abs_nonneg (t - 30)]

theorem calc_pos {s : String} {fr : FeatureRange} {f : ℚ → ℚ → ℚ → ℚ → ℚ → ℚ}
    (hfr : feature_ranges s = some fr) (hf : get_kwh_calculator s = some f)
    {i h w a t : ℚ} (hr : inRange5 i h w a t fr) :
    (5.22 : ℚ) ≤ f i h w a t := by
  obtain ⟨r1, r2, r3, r4, r5, r6, r7, r8, r9, r10⟩ := hr
  rcases feature_ranges_inv hfr with ⟨hs, hfre⟩ | ⟨hs, hfre⟩ | ⟨hs, hfre⟩ <;>
    subst hs <;> subst hfre
  · have hf2 : f = calc_kwh_summer := by
      have he : get_kwh_calculator "summer" = some calc_kwh_summer := rfl
      rw [he] at hf
      exact (Option.some.inj hf).symm
    subst hf2
    exact calc_kwh_summer_lb r1 r4 r5 r7 r9 r10
  · have hf2 : f = calc_kwh_winter := by
      have he : get_kwh_calculator "winter" = some calc_kwh_winter := rfl
      rw [he] at hf
      exact (Option.some.inj hf).symm
    subst hf2
    exact calc_kwh_winter_lb r1 r4 r5 r7 r9 r10
  · have hf2 : f = calc_kwh_monsoon := by
      have he : get_kwh_calculator "monsoon" = some calc_kwh_monsoon := rfl
      rw [he] at hf
      exact (Option.some.inj hf).symm
    subst hf2
    exact calc_kwh_monsoon_lb r1 r4 r5 r7 r9 r10

theorem round2_pos {x : ℚ} (h : (5.22 : ℚ) ≤ x) : 0 < round2 x := by
  have := abs_round2_sub x
  rw [abs_le] at this
  linarith [this.1, this.2]

theorem sessionReads_warm (u : ℕ → ℚ) (tbl : Option (List Row)) :
    ∀ n, sessionReads u n (some tbl) = List.replicate n tbl := by
  intro n
  induction n with
  | zero => rfl
  | succ n ih => simp only [sessionReads, cacheRead, ih, List.replicate_succ]

/-! ### The claims -/

/-- C1: the stored kwh of every generated row is the season-specific linear
combination of the row's five raw sampled values (then rounded to 2 decimal
places like every stored field), the three season formulas are exactly the
stated linear combinations, and the two concrete scenarios evaluate to
202.34 (summer) and 89.105 (winter). -/
theorem claim1_kwh_formulas :
    (∀ i h w a t : ℚ, calc_kwh_summer i h w a t =
        0.25 * i - 0.05 * h + 0.02 * w + 0.1 * a - 0.03 * |t - 30|) ∧
    (∀ i h w a t : ℚ, calc_kwh_winter i h w a t =
        0.18 * i - 0.03 * h + 0.015 * w + 0.08 * a - 0.02 * |t - 30|) ∧
    (∀ i h w a t : ℚ, calc_kwh_monsoon i h w a t =
        0.15 * i - 0.1 * h + 0.01 * w + 0.05 * a - 0.04 * |t - 30|) ∧
    (∀ (u : ℕ → ℚ) (t dayc : ℕ) (m s : String) (fr : FeatureRange)
        (f : ℚ → ℚ → ℚ → ℚ → ℚ → ℚ),
      (mkRow u t dayc m s fr f).kwh =
        round2 (f (uniform u t fr.irradiance) (uniform u (t + 1) fr.humidity)
          (uniform u (t + 2) fr.wind_speed) (uniform u (t + 3) fr.ambient_temperature)
          (uniform u (t + 4) fr.tilt_angle))) ∧
    calc_kwh_summer 800 30 2 38 30 = 202.34 ∧
    calc_kwh_winter 500 50 3 12 10 = 89.105 := by
  refine ⟨fun i h w a t => rfl, fun i h w a t => rfl, fun i h w a t => rfl,
    fun u t dayc m s fr f => rfl, ?_, ?_⟩
  · unfold calc_kwh_summer
    rw [show ((30 : ℚ) - 30) = 0 by norm_num, abs_zero]
    norm_num
  · unfold calc_kwh_winter
    rw [show |(10 : ℚ) - 30| = 20 by rw [show ((10 : ℚ) - 30) = -(20) by norm_num,
      abs_neg, abs_of_nonneg (by norm_num : (0:ℚ) ≤ 20)]]
    norm_num

/-- C2: the generator always succeeds and returns exactly 365 rows whose
`day` column is the contiguous strictly increasing sequence 1..365. -/
theorem claim2_365_days (u : ℕ → ℚ) :
    ∃ rows, generate_complete_year_data u = some rows ∧
      rows.length = 365 ∧ rows.map Row.day = List.range' 1 365 := by
  obtain ⟨rows, h1, h2, _⟩ := genMonths_ok u months_days 0 1 (by decide)
  refine ⟨rows, h1, ?_, ?_⟩
  · have hlen := congrArg List.length h2
    simpa [totalDays, months_days] using hlen
  · rw [h2]
    rfl

/-- C3: every generated row's month column equals the month dictated by the
row's position under the fixed non-leap month lengths (which sum to 365),
and every row's season is the fixed month-to-season mapping applied to the
row's month. -/
theorem claim3_month_season (u : ℕ → ℚ) :
    ∃ rows, generate_complete_year_data u = some rows ∧
      rows.map Row.month = monthSeq months_days ∧
      (∀ r ∈ rows, month_to_season r.month = some r.season) ∧
      totalDays months_days = 365 := by
  obtain ⟨rows, h1, _, h3⟩ := genMonths_ok u months_days 0 1 (by decide)
  refine ⟨rows, h1, h3, ?_, by decide⟩
  intro r hr
  obtain ⟨m, d, s, fr, f, t', dayc', hmem, hms, hcal, hfr, hrow⟩ :=
    genMonths_mem u months_days 0 1 rows r h1 hr
  subst hrow
  exact hms

theorem claim3_witness :
    ∃ rows, generate_complete_year_data (fun _ => 0) = some rows ∧
      rows.map Row.month = monthSeq months_days ∧
      (∀ r ∈ rows, month_to_season r.month = some r.season) ∧
      totalDays months_days = 365 :=
  claim3_month_season (fun _ => 0)

/-- C4: when the unit samples lie in [0,1] (uniform draws stay inside the
requested closed interval), every stored field of every generated row lies
within its season's configured [low, high] range, including after rounding
to 2 decimal places. -/
theorem claim4_fields_in_range (u : ℕ → ℚ) (h01 : ∀ n, 0 ≤ u n ∧ u n ≤ 1) :
    ∃ rows, generate_complete_year_data u = some rows ∧
      ∀ r ∈ rows, ∃ fr, feature_ranges r.season = some fr ∧ rowInRange r fr := by
  obtain ⟨rows, h1, _, _⟩ := genMonths_ok u months_days 0 1 (by decide)
  refine ⟨rows, h1, ?_⟩
  intro r hr
  obtain ⟨m, d, s, fr, f, t', dayc', hmem, hms, hcal, hfr, hrow⟩ :=
    genMonths_mem u months_days 0 1 rows r h1 hr
  subst hrow
  exact ⟨fr, hfr, mkRow_inRange h01 t' dayc' m s f (feature_ranges_frOk hfr)⟩

theorem claim4_witness :
    ∃ rows, generate_complete_year_data (fun _ => 1/2) = some rows ∧
      ∀ r ∈ rows, ∃ fr, feature_ranges r.season = some fr ∧ rowInRange r fr :=
  claim4_fields_in_range (fun _ => 1/2) (fun n => by norm_num)

/-- C5: for every generated row, the row's season formula applied to the
five stored (rounded) field values is within 0.01 of the stored `kwh`,
although the stored `kwh` was computed from the unrounded samples and then
rounded. -/
theorem claim5_kwh_recompute (u : ℕ → ℚ) :
    ∃ rows, generate_complete_year_data u = some rows ∧
      ∀ r ∈ rows, ∃ f, get_kwh_calculator r.season = some f ∧
        |f r.irradiance r.humidity r.wind_speed r.ambient_temperature r.tilt_angle
          - r.kwh| ≤ 1 / 100 := by
  obtain ⟨rows, h1, _, _⟩ := genMonths_ok u months_days 0 1 (by decide)
  refine ⟨rows, h1, ?_⟩
  intro r hr
  obtain ⟨m, d, s, fr, f, t', dayc', hmem, hms, hcal, hfr, hrow⟩ :=
    genMonths_mem u months_days 0 1 rows r h1 hr
  subst hrow
  exact ⟨f, hcal, kwh_recompute_close (get_kwh_calculator_cases hcal) _ _ _ _ _⟩

theorem claim5_witness :
    ∃ rows, generate_complete_year_data (fun _ => 0) = some rows ∧
      ∀ r ∈ rows, ∃ f, get_kwh_calculator r.season = some f ∧
        |f r.irradiance r.humidity r.wind_speed r.ambient_temperature r.tilt_angle
          - r.kwh| ≤ 1 / 100 :=
  claim5_kwh_recompute (fun _ => 0)

/-- C6 (counterexample to the claim as stated): there is NO assignment of
the five environmental values within a season's configured ranges on which
that season's formula is negative — the claimed negative-kwh witness cannot
exist, because each formula is bounded below by 5.22 on its range box. -/
theorem claim6_counterexample :
    ¬ ∃ (s : String) (fr : FeatureRange) (f : ℚ → ℚ → ℚ → ℚ → ℚ → ℚ)
        (i h w a t : ℚ),
      feature_ranges s = some fr ∧ get_kwh_calculator s = some f ∧
        inRange5 i h w a t fr ∧ f i h w a t < 0 := by
  rintro ⟨s, fr, f, i, h, w, a, t, hfr, hf, hr, hneg⟩
  have hpos := calc_pos hfr hf hr
  linarith

/-- C6 (amended): the generator applies no clamping — the stored `kwh` is
exactly the season formula's value on the raw samples, rounded to 2 decimal
places, stored as-is — but for samples within the configured ranges the
formula is bounded below by 5.22, so the stored `kwh` is in fact always
strictly positive, never negative. -/
theorem claim6_amended (u : ℕ → ℚ) (h01 : ∀ n, 0 ≤ u n ∧ u n ≤ 1) :
    ∃ rows, generate_complete_year_data u = some rows ∧
      ∀ r ∈ rows, 0 < r.kwh ∧
        ∃ f fr t', get_kwh_calculator r.season = some f ∧
          feature_ranges r.season = some fr ∧
          r.kwh = round2 (f (uniform u t' fr.irradiance) (uniform u (t' + 1) fr.humidity)
            (uniform u (t' + 2) fr.wind_speed)
            (uniform u (t' + 3) fr.ambient_temperature)
            (uniform u (t' + 4) fr.tilt_angle)) := by
  obtain ⟨rows, h1, _, _⟩ := genMonths_ok u months_days 0 1 (by decide)
  refine ⟨rows, h1, ?_⟩
  intro r hr
  obtain ⟨m, d, s, fr, f, t', dayc', hmem, hms, hcal, hfr, hrow⟩ :=
    genMonths_mem u months_days 0 1 rows r h1 hr
  subst hrow
  obtain ⟨p1, p2, p3, p4, p5⟩ := feature_ranges_frOk hfr
  have a1 := uniform_mem (h01 t').1 (h01 t').2 p1.2.2
  have a2 := uniform_mem (h01 (t' + 1)).1 (h01 (t' + 1)).2 p2.2.2
  have a3 := uniform_mem (h01 (t' + 2)).1 (h01 (t' + 2)).2 p3.2.2
  have a4 := uniform_mem (h01 (t' + 3)).1 (h01 (t' + 3)).2 p4.2.2
  have a5 := uniform_mem (h01 (t' + 4)).1 (h01 (t' + 4)).2 p5.2.2
  have hin : inRange5 (uniform u t' fr.irradiance) (uniform u (t' + 1) fr.humidity)
      (uniform u (t' + 2) fr.wind_speed) (uniform u (t' + 3) fr.ambient_temperature)
      (uniform u (t' + 4) fr.tilt_angle) fr :=
    ⟨a1.1, a1.2, a2.1, a2.2, a3.1, a3.2, a4.1, a4.2, a5.1, a5.2⟩
  exact ⟨round2_pos (calc_pos hfr hcal hin), f, fr, t', hcal, hfr, rfl⟩

theorem claim6_witness :
    ∃ rows, generate_complete_year_data (fun _ => 1/2) = some rows ∧
      ∀ r ∈ rows, 0 < r.kwh ∧
        ∃ f fr t', get_kwh_calculator r.season = some f ∧
          feature_ranges r.season = some fr ∧
          r.kwh = round2 (f (uniform (fun _ => 1/2) t' fr.irradiance)
            (uniform (fun _ => 1/2) (t' + 1) fr.humidity)
            (uniform (fun _ => 1/2) (t' + 2) fr.wind_speed)
            (uniform (fun _ => 1/2) (t' + 3) fr.ambient_temperature)
            (uniform (fun _ => 1/2) (t' + 4) fr.tilt_angle)) :=
  claim6_amended (fun _ => 1/2) (fun n => by norm_num)

/-- C7: generation is a deterministic function of the stream of uniform
draws — two invocations fed the same draws produce identical tables. -/
theorem claim7_deterministic (u v : ℕ → ℚ) (h : ∀ n, u n = v n) :
    generate_complete_year_data u = generate_complete_year_data v ∧
      load_solar_data u = load_solar_data v := by
  have huv : u = v := funext h
  subst huv
  exact ⟨rfl, rfl⟩

theorem claim7_witness :
    generate_complete_year_data (fun _ => 0) = generate_complete_year_data (fun _ => 0) ∧
      load_solar_data (fun _ => 0) = load_solar_data (fun _ => 0) :=
  claim7_deterministic (fun _ => 0) (fun _ => 0) (fun _ => rfl)

/-- C8: the presentation-layer filter selects exactly the rows whose season
is in S and whose month is in M, in source order (a sublist of the source
table, each selected row kept unchanged), and the source table itself is
not modified by filtering. -/
theorem claim8_filter (df : List Row) (S M : List String) :
    List.Sublist (filtered_df df S M) df ∧
      ∀ r : Row, r ∈ filtered_df df S M ↔ r ∈ df ∧ r.season ∈ S ∧ r.month ∈ M := by
  constructor
  · exact List.filter_sublist df
  · intro r
    simp [filtered_df, List.mem_filter]

/-- C9: within one dashboard session the table is generated once and
memoized — every presentation-layer read observes the very same table, and
repeated reads never change the answer between re-renders. -/
theorem claim9_memoized (u : ℕ → ℚ) (n : ℕ) :
    sessionReads u n none = List.replicate n (load_solar_data u) := by
  cases n with
  | zero => rfl
  | succ n =>
      simp only [sessionReads, cacheRead, List.replicate_succ]
      exact congrArg _ (sessionReads_warm u (load_solar_data u) n)

/-- C10: the season dispatch is total on every month of the calendar table
(for each month, the mapped season has a calculator), the fall-through
branch of `get_kwh_calculator` does return nothing on an unrecognized
season, and generation never reaches it — the generator always returns a
table. -/
theorem claim10_dispatch_total :
    months_days.all (fun p => monthOk p.1) = true ∧
      get_kwh_calculator "autumn" = none ∧
      ∀ u : ℕ → ℚ, (generate_complete_year_data u).isSome = true := by
  refine ⟨by decide, rfl, ?_⟩
  intro u
  obtain ⟨rows, h1, _, _⟩ := genMonths_ok u months_days 0 1 (by decide)
  unfold generate_complete_year_data
  rw [h1]
  rfl

end Solar
